import Mathlib

/-!
# nrf_dfu — verification of the host-side DFU updater

Shallow embedding of the repository `robbym/nrf_dfu` (Rust):

* `slip.rs`    — SLIP framing codec (`SlipCodec::decoded_read` / `encoded_write`);
* `dfu.rs`     — DFU response frame validation (`DfuResponse::dfu_read`),
                 error-code mapping (`From<u8> for DfuError`), `NoResponse`;
* `protocol.rs`— request serialization and response payload parsers;
* `updater.rs` — the error type, `write_object`, `transfer_object`,
                 `update_module` and `update`.

Byte strings are `List Nat` (each element a byte value).  Machine integers
are `Nat` with explicit wrapping where the Rust code can overflow.  A Rust
panic (assertion failure, `unwrap`, out-of-bounds index, `%` by zero,
checked-subtraction underflow) is modelled by a dedicated `crash` outcome,
distinct from returning an `Error` value.

The stateful updater is embedded with explicit state passing: the device
side is a script of per-request outcomes (`DevReply`), and every request
the updater emits is recorded in a trace.  The unbounded `loop` in
`transfer_object` is modelled with an explicit fuel parameter; exhausting
fuel yields the `noFuel` outcome.
-/

namespace NrfDfu

/-! ## Errors (updater.rs lines 12-18, dfu.rs lines 9-21 and 30-57) -/

/-- `DfuError` — dfu.rs lines 9-21. -/
inductive DfuError where
  | InvalidOpcode
  | OpcodeNotSupported
  | InvalidParameter
  | InsufficientResources
  | InvalidObject
  | UnsupportedType
  | OperationNotPermitted
  | OperationFailed
  | ExtendedError
  | UnknownError
deriving DecidableEq, Repr

/-- The `std::io::Error` values this crate actually constructs: `read_exact`
hitting end of input (kind `UnexpectedEof`), and errors built with
`std::io::Error::new(ErrorKind::Other, msg)` (slip.rs lines 42-45). -/
inductive IoError where
  | unexpectedEof
  | other (msg : String)
deriving DecidableEq, Repr

/-- `Error` — updater.rs lines 12-18.  Note: there are exactly four
variants; there is no separate framing-error variant. -/
inductive Error where
  | IOError (e : IoError)
  | DfuError (e : DfuError)
  | PingMismatch
  | CrcMismatch
deriving DecidableEq, Repr

/-- `impl From<std::io::Error> for Error` — dfu.rs lines 47-51. -/
def ioErrorToError (e : IoError) : Error := Error.IOError e

/-- `impl From<u8> for DfuError` — dfu.rs lines 30-45. -/
def dfuErrorFrom (errCode : Nat) : DfuError :=
  if errCode = 0x00 then DfuError.InvalidOpcode
  else if errCode = 0x02 then DfuError.OpcodeNotSupported
  else if errCode = 0x03 then DfuError.InvalidParameter
  else if errCode = 0x04 then DfuError.InsufficientResources
  else if errCode = 0x05 then DfuError.InvalidObject
  else if errCode = 0x06 then DfuError.UnsupportedType
  else if errCode = 0x07 then DfuError.OperationNotPermitted
  else if errCode = 0x08 then DfuError.OperationFailed
  else if errCode = 0x09 then DfuError.ExtendedError
  else DfuError.UnknownError

/-! ## SLIP codec (slip.rs)

`decoded_read` consumes bytes from a stream; we model the stream as a
`List Nat` and return both the decoded frame and the unconsumed rest of
the stream.  An exhausted stream models `read_exact` failing
(`UnexpectedEof`). -/

/-- The body of the decode loop — slip.rs lines 20-40.  The source matches
`SLIP_ESC` (0xDB) first (reading one more byte and unescaping, dropping
unknown escapes), then `SLIP_END` (0xC0, end of frame), then pushes the
byte literally. -/
def slipDecodeLoop : List Nat → Except IoError (List Nat × List Nat)
  | [] => Except.error IoError.unexpectedEof
  | b :: rest =>
    if b = 0xDB then
      match rest with
      | [] => Except.error IoError.unexpectedEof
      | c :: rest2 =>
        if c = 0xDC then (slipDecodeLoop rest2).map (fun p => (0xC0 :: p.1, p.2))
        else if c = 0xDD then (slipDecodeLoop rest2).map (fun p => (0xDB :: p.1, p.2))
        else slipDecodeLoop rest2
    else if b = 0xC0 then Except.ok ([], rest)
    else (slipDecodeLoop rest).map (fun p => (b :: p.1, p.2))

/-- `SlipCodec::decoded_read` — slip.rs lines 14-47.  The first byte must
be `0x60`; otherwise the source builds
`std::io::Error::new(ErrorKind::Other, "Expected byte: 0x60")`. -/
def slipDecodedRead (stream : List Nat) : Except IoError (List Nat × List Nat) :=
  match stream with
  | [] => Except.error IoError.unexpectedEof
  | b :: rest =>
    if b = 0x60 then slipDecodeLoop rest
    else Except.error (IoError.other ("Expected byte: 0x60"))

/-- The per-byte escape of `encoded_write`'s `flat_map` — slip.rs lines 52-56. -/
def slipEscapeByte (x : Nat) : List Nat :=
  if x = 0xC0 then [0xDB, 0xDC]
  else if x = 0xDB then [0xDB, 0xDD]
  else [x]

/-- `SlipCodec::encoded_write` — slip.rs lines 49-63: the byte sequence
written to the stream (escaped payload followed by a single terminal
`0xC0`). -/
def slipEncodedWrite (buf : List Nat) : List Nat :=
  (buf.map slipEscapeByte).flatten ++ [0xC0]

/-! ## DFU response frame validation (dfu.rs lines 82-111)

`dfu_read` decodes a frame, asserts it has at least two bytes, checks the
expected response opcode and the status byte, and then deserializes the
payload (`bincode::deserialize(..).unwrap()`); in protocol.rs the payload
parsers are `From<Vec<u8>>` impls that `assert_eq!` the payload length or
index into it.  A failed assertion / `unwrap` / out-of-bounds index is a
panic, modelled by `crash`. -/

/-- Outcome of reading and parsing one response frame. -/
inductive ReadOutcome (α : Type) where
  | ok (a : α)
  | err (e : Error)
  | crash
deriving DecidableEq, Repr

/-- `DfuResponse::dfu_read` — dfu.rs lines 83-97 — applied to an already
decoded frame.  `respOpcode` is the request's `RESPONSE_OPCODE`; `p` is
the payload parser (returning `none` where the Rust parser would panic). -/
def dfuReadFrame {α : Type} (respOpcode : Nat) (p : List Nat → Option α)
    (frame : List Nat) : ReadOutcome α :=
  match frame with
  | b0 :: b1 :: payload =>
    if b0 ≠ respOpcode then ReadOutcome.err (Error.DfuError DfuError.InvalidOpcode)
    else if b1 ≠ 1 then ReadOutcome.err (Error.DfuError (dfuErrorFrom b1))
    else
      match p payload with
      | some a => ReadOutcome.ok a
      | none => ReadOutcome.crash
  | _ => ReadOutcome.crash    -- fails `assert!(response.len() >= 2)`

/-- `NoResponse::dfu_read` — dfu.rs lines 102-106: returns `Ok(NoResponse)`
without touching the reader, so the stream is unchanged. -/
def noResponseDfuRead (stream : List Nat) : ReadOutcome Unit × List Nat :=
  (ReadOutcome.ok (), stream)

/-! ## Request serialization (dfu.rs lines 74-79, protocol.rs) -/

/-- The default `DfuRequest::dfu_write` request bytes (before SLIP
framing): the request opcode followed by the serialized payload —
dfu.rs lines 74-79. -/
def dfuRequestBytes (opcode : Nat) (payload : List Nat) : List Nat :=
  opcode :: payload

/-- `OPCODE` of the acknowledged `ObjectWriteRequest<ObjectWriteResponse>`
— protocol.rs line 198.  This is the opcode its *response* is validated
against (it is `CrcGet`'s opcode, not 0x08). -/
def objectWriteAckOpcode : Nat := 0x03

/-- `OPCODE` of the unacknowledged `ObjectWriteRequest<NoResponse>` —
protocol.rs line 210. -/
def objectWriteUnackOpcode : Nat := 0x08

/-- The overridden `dfu_write` of the acknowledged `ObjectWriteRequest` —
protocol.rs lines 201-207: the request bytes lead with a literal `0x08`,
not with `OPCODE`. -/
def objectWriteAckRequestBytes (data : List Nat) : List Nat :=
  0x08 :: data

/-- Request bytes of the unacknowledged variant, via the default
`dfu_write` with `OPCODE = 0x08` and the raw data as payload. -/
def objectWriteUnackRequestBytes (data : List Nat) : List Nat :=
  dfuRequestBytes objectWriteUnackOpcode data

/-- Little-endian value of a byte list (least significant byte first). -/
def leNat : List Nat → Nat
  | [] => 0
  | b :: rest => b + 256 * leNat rest

/-- The four little-endian bytes of a `u32`. -/
def leBytes4 (n : Nat) : List Nat :=
  [n % 256, n / 256 % 256, n / 256 ^ 2 % 256, n / 256 ^ 3 % 256]

/-- `ObjectWriteResponse` / `GetCrcResponse` payload shape —
protocol.rs lines 73-93 and 221-241. -/
structure GetCrcResponse where
  offset : Nat
  crc : Nat
deriving DecidableEq, Repr

/-- `From<Vec<u8>> for GetCrcResponse` — protocol.rs lines 78-93:
`assert_eq!(data.len(), 8)` then two little-endian `u32`s. -/
def parseGetCrcResponse (data : List Nat) : Option GetCrcResponse :=
  if data.length = 8 then
    some { offset := leNat (data.take 4), crc := leNat ((data.drop 4).take 4) }
  else none

/-- `ObjectWriteResponse` — protocol.rs lines 221-225: the `{offset, crc}`
pair carried by the receipt of an acknowledged `ObjectWrite`. -/
structure ObjectWriteResponse where
  offset : Nat
  crc : Nat
deriving DecidableEq, Repr

/-- `From<Vec<u8>> for ObjectWriteResponse` — protocol.rs lines 226-241:
`assert_eq!(data.len(), 8)` then two little-endian `u32`s. -/
def parseObjectWriteResponse (data : List Nat) : Option ObjectWriteResponse :=
  if data.length = 8 then
    some { offset := leNat (data.take 4), crc := leNat ((data.drop 4).take 4) }
  else none

/-- `AbortRequest` request bytes — protocol.rs lines 372-382: the default
`dfu_write` with `OPCODE = 0x0C` and an empty payload. -/
def abortRequestBytes : List Nat := dfuRequestBytes 0x0C []

/-- `AbortRequest`'s `Response` is `NoResponse` (protocol.rs line 381), so
reading its response is `NoResponse::dfu_read`. -/
def abortResponseRead : List Nat → ReadOutcome Unit × List Nat := noResponseDfuRead

/-- `ObjectWriteRequest<NoResponse>`'s response read is likewise
`NoResponse::dfu_read` (protocol.rs lines 209-212). -/
def objectWriteUnackResponseRead : List Nat → ReadOutcome Unit × List Nat := noResponseDfuRead

/-- `From<Vec<u8>> for PingResponse` — protocol.rs lines 261-265: reads
`data[0]` with no length check (out of bounds on an empty payload). -/
def parsePingResponse (data : List Nat) : Option Nat :=
  match data with
  | [] => none
  | b :: _ => some b

/-! ## CRC-32/IEEE (the `crc` crate, version 1.x, as used by updater.rs)

The crate builds its lookup table from the reflected polynomial
`0xEDB88320` (eight conditional shift-xor steps per index), and
`crc32::update(value, table, bytes)` complements `value`, folds the
table step over the bytes, and complements again.
`crc32::checksum_ieee(bytes)` is `update(0, table, bytes)`. -/

/-- One shift-xor step of the reflected CRC-32 table construction. -/
def crcPolyStep (v : Nat) : Nat :=
  if v % 2 = 1 then (v / 2) ^^^ 0xEDB88320 else v / 2

/-- `IEEE_TABLE[i]`: eight `crcPolyStep` iterations starting from the
index byte. -/
def crcTableEntry (i : Nat) : Nat :=
  crcPolyStep (crcPolyStep (crcPolyStep (crcPolyStep
    (crcPolyStep (crcPolyStep (crcPolyStep (crcPolyStep (i % 256))))))))

/-- One byte of the table-driven CRC-32 fold:
`table[(value ^ byte) & 0xFF] ^ (value >> 8)`. -/
def crcByteStep (v b : Nat) : Nat :=
  crcTableEntry ((v ^^^ b) % 256) ^^^ (v / 256)

/-- `crc32::update(value, &IEEE_TABLE, bytes)`. -/
def crcUpdate (value : Nat) (bytes : List Nat) : Nat :=
  (bytes.foldl crcByteStep (value ^^^ 0xFFFFFFFF)) ^^^ 0xFFFFFFFF

/-- `crc32::checksum_ieee(bytes)` = `update(0, &IEEE_TABLE, bytes)`. -/
def crcChecksum (bytes : List Nat) : Nat :=
  crcUpdate 0 bytes

/-! ## The updater's interaction model (updater.rs)

The device side of one session is a script of per-request outcomes.  Each
request the updater sends consumes exactly one script entry, which states
how that request went: the transport write failed (`wErr`), `dfu_read`
returned an error (`rErr` — an io failure or a non-success DFU status),
or a successfully parsed response of the appropriate shape.  A response
of the wrong shape for the request makes the response parser panic
(`crash`), as in protocol.rs / dfu.rs.

Requests whose `Response` is `NoResponse` (the unacknowledged
`ObjectWrite`, and `Abort`) read nothing from the device: only a
transport-write failure (`wErr`) can make them fail. -/

/-- `ObjectType` — dfu.rs lines 23-28. -/
inductive ObjectType where
  | Command
  | Data
deriving DecidableEq, Repr

/-- The requests the updater can emit, as recorded in the trace. -/
inductive Request where
  | ping (id : Nat)
  | receiptNotifySet (target : Nat)
  | mtuGet
  | objectSelect (ty : ObjectType)
  | objectCreate (ty : ObjectType) (size : Nat)
  | objectWriteUnack (data : List Nat)
  | objectWriteAck (data : List Nat)
  | crcGet
  | objectExecute
  | abort
deriving DecidableEq, Repr

/-- The scripted outcome of one request. -/
inductive DevReply where
  | wErr (e : Error)                       -- the transport write fails
  | rErr (e : Error)                       -- `dfu_read` returns this error
  | unit                                   -- a `NoDataResponse` success
  | noResp                                 -- nothing read (`NoResponse`)
  | selectR (maxSize offset crc : Nat)     -- `ObjectSelectResponse`
  | crcR (offset crc : Nat)                -- `GetCrcResponse`
  | writeR (offset crc : Nat)              -- `ObjectWriteResponse`
  | mtuR (mtu : Nat)                       -- `GetMtuResponse`
  | pingR (id : Nat)                       -- `PingResponse`
deriving DecidableEq, Repr

/-- Session state: the remaining device script and the trace of requests
sent so far. -/
structure DfuState where
  script : List DevReply
  trace : List Request
deriving DecidableEq, Repr

/-- Outcome of a step of the updater.  `crash` models a Rust panic;
`noFuel` models exhausting the fuel bound on `transfer_object`'s loop. -/
inductive Outcome (α : Type) where
  | ok (a : α)
  | err (e : Error)
  | crash
  | noFuel
deriving DecidableEq, Repr

/-- Forget the value of an outcome (to re-raise it at another type). -/
def Outcome.toUnit {α : Type} : Outcome α → Outcome Unit
  | Outcome.ok _ => Outcome.ok ()
  | Outcome.err e => Outcome.err e
  | Outcome.crash => Outcome.crash
  | Outcome.noFuel => Outcome.noFuel

/-- Record a request in the trace (the `dfu_write` side). -/
def pushReq (rq : Request) (st : DfuState) : DfuState :=
  { st with trace := st.trace ++ [rq] }

/-- Consume the next script entry (the device's side of one request). -/
def popReply (st : DfuState) : Option DevReply × DfuState :=
  match st.script with
  | [] => (none, st)
  | r :: rest => (some r, { st with script := rest })

/-- A request whose `Response` is `NoResponse` (unacknowledged
`ObjectWrite`, `Abort`): `dfu_read` reads nothing (dfu.rs lines 102-106),
so only a transport-write failure can surface. -/
def reqNoResponse (rq : Request) (st : DfuState) : Outcome Unit × DfuState :=
  match popReply (pushReq rq st) with
  | (some (DevReply.wErr e), st') => (Outcome.err e, st')
  | (_, st') => (Outcome.ok (), st')

/-- A request whose `Response` is `NoDataResponse` (`ObjectCreate`,
`ReceiptNotifySet`, `ObjectExecute`). -/
def reqUnit (rq : Request) (st : DfuState) : Outcome Unit × DfuState :=
  match popReply (pushReq rq st) with
  | (none, st') => (Outcome.err (Error.IOError IoError.unexpectedEof), st')
  | (some (DevReply.wErr e), st') => (Outcome.err e, st')
  | (some (DevReply.rErr e), st') => (Outcome.err e, st')
  | (some DevReply.unit, st') => (Outcome.ok (), st')
  | (some _, st') => (Outcome.crash, st')

/-- `ObjectSelectRequest`, yielding `(max_size, offset, crc)`. -/
def reqSelect (ty : ObjectType) (st : DfuState) : Outcome (Nat × Nat × Nat) × DfuState :=
  match popReply (pushReq (Request.objectSelect ty) st) with
  | (none, st') => (Outcome.err (Error.IOError IoError.unexpectedEof), st')
  | (some (DevReply.wErr e), st') => (Outcome.err e, st')
  | (some (DevReply.rErr e), st') => (Outcome.err e, st')
  | (some (DevReply.selectR m o c), st') => (Outcome.ok (m, o, c), st')
  | (some _, st') => (Outcome.crash, st')

/-- `GetCrcRequest`, yielding `(offset, crc)`. -/
def reqCrcGet (st : DfuState) : Outcome (Nat × Nat) × DfuState :=
  match popReply (pushReq Request.crcGet st) with
  | (none, st') => (Outcome.err (Error.IOError IoError.unexpectedEof), st')
  | (some (DevReply.wErr e), st') => (Outcome.err e, st')
  | (some (DevReply.rErr e), st') => (Outcome.err e, st')
  | (some (DevReply.crcR o c), st') => (Outcome.ok (o, c), st')
  | (some _, st') => (Outcome.crash, st')

/-- The acknowledged `ObjectWriteRequest<ObjectWriteResponse>`, yielding
the `(offset, crc)` receipt. -/
def reqWriteAck (data : List Nat) (st : DfuState) : Outcome (Nat × Nat) × DfuState :=
  match popReply (pushReq (Request.objectWriteAck data) st) with
  | (none, st') => (Outcome.err (Error.IOError IoError.unexpectedEof), st')
  | (some (DevReply.wErr e), st') => (Outcome.err e, st')
  | (some (DevReply.rErr e), st') => (Outcome.err e, st')
  | (some (DevReply.writeR o c), st') => (Outcome.ok (o, c), st')
  | (some _, st') => (Outcome.crash, st')

/-- `GetMtuRequest`, yielding the mtu. -/
def reqMtu (st : DfuState) : Outcome Nat × DfuState :=
  match popReply (pushReq Request.mtuGet st) with
  | (none, st') => (Outcome.err (Error.IOError IoError.unexpectedEof), st')
  | (some (DevReply.wErr e), st') => (Outcome.err e, st')
  | (some (DevReply.rErr e), st') => (Outcome.err e, st')
  | (some (DevReply.mtuR m), st') => (Outcome.ok m, st')
  | (some _, st') => (Outcome.crash, st')

/-- `PingRequest`, yielding the echoed id. -/
def reqPing (id : Nat) (st : DfuState) : Outcome Nat × DfuState :=
  match popReply (pushReq (Request.ping id) st) with
  | (none, st') => (Outcome.err (Error.IOError IoError.unexpectedEof), st')
  | (some (DevReply.wErr e), st') => (Outcome.err e, st')
  | (some (DevReply.rErr e), st') => (Outcome.err e, st')
  | (some (DevReply.pingR i), st') => (Outcome.ok i, st')
  | (some _, st') => (Outcome.crash, st')

/-! ## `Updater::write_object` (updater.rs lines 53-77) -/

/-- Structural worker for `slice::chunks(m + 1)`: `fuel` bounds the
number of chunks produced (one chunk consumes at least one element, so
`l.length` is always enough fuel). -/
def chunksAuxGo {α : Type} (m : Nat) : Nat → List α → List (List α)
  | _, [] => []
  | 0, _ :: _ => []
  | Nat.succ fuel, x :: xs => (x :: xs.take m) :: chunksAuxGo m fuel (xs.drop m)

/-- `slice::chunks(m + 1)`: split a list into consecutive chunks of
`m + 1` elements (the last possibly shorter).  The caller guards the
chunk size: `chunks(0)` panics in Rust. -/
def chunksAux {α : Type} (m : Nat) (l : List α) : List (List α) :=
  chunksAuxGo m l.length l

/-- The body of `write_object`'s `for chunk in data.chunks(..)` loop —
updater.rs lines 56-74.  `prnCount` is the running `prn_count`; the
running CRC is updated over each chunk, every `prn`-th chunk is sent as
an acknowledged `ObjectWrite` whose receipt CRC is checked against the
running CRC (mismatch → `Error::CrcMismatch`), and all other chunks are
unacknowledged. -/
def writeObjectGo (prn : Nat) : Nat → Nat → List (List Nat) → DfuState →
    Outcome Nat × DfuState
  | _, objectCrc, [], st => (Outcome.ok objectCrc, st)
  | prnCount, objectCrc, chunk :: rest, st =>
    let objectCrc := crcUpdate objectCrc chunk
    if 0 < prn then
      if prnCount < prn - 1 then
        match reqNoResponse (Request.objectWriteUnack chunk) st with
        | (Outcome.ok _, st') => writeObjectGo prn (prnCount + 1) objectCrc rest st'
        | (Outcome.err e, st') => (Outcome.err e, st')
        | (Outcome.crash, st') => (Outcome.crash, st')
        | (Outcome.noFuel, st') => (Outcome.noFuel, st')
      else
        match reqWriteAck chunk st with
        | (Outcome.ok (_, crc), st') =>
          if crc ≠ objectCrc then (Outcome.err Error.CrcMismatch, st')
          else writeObjectGo prn 0 objectCrc rest st'
        | (Outcome.err e, st') => (Outcome.err e, st')
        | (Outcome.crash, st') => (Outcome.crash, st')
        | (Outcome.noFuel, st') => (Outcome.noFuel, st')
    else
      match reqNoResponse (Request.objectWriteUnack chunk) st with
      | (Outcome.ok _, st') => writeObjectGo prn 0 objectCrc rest st'
      | (Outcome.err e, st') => (Outcome.err e, st')
      | (Outcome.crash, st') => (Outcome.crash, st')
      | (Outcome.noFuel, st') => (Outcome.noFuel, st')

/-- `Updater::write_object` — updater.rs lines 53-77.  `data.chunks(0)`
panics in Rust ("chunk size must be non-zero"). -/
def writeObject (prn chunkSize : Nat) (objectCrc : Nat) (data : List Nat)
    (st : DfuState) : Outcome Nat × DfuState :=
  if chunkSize = 0 then (Outcome.crash, st)
  else writeObjectGo prn 0 objectCrc (chunksAux (chunkSize - 1) data) st

/-! ## `Updater::transfer_object` (updater.rs lines 79-132)

The `loop` body is split into straight-line pieces; `StepRes.next`
carries the updated `object_offset` / `object_crc` into the next
iteration, and `StepRes.final` ends the call. -/

/-- Result of one iteration of `transfer_object`'s loop. -/
inductive StepRes where
  | next (objectOffset objectCrc : Nat)
  | final (o : Outcome Unit)
deriving DecidableEq, Repr

/-- Lines 122-128: stream the current window with `write_object`, then
`CrcGet` and reconcile: `object_offset := offset` from the reply, and a
receipt CRC different from the running CRC fails with `CrcMismatch`.
`&data[objectOffset..objectEnd]` panics when the range is invalid. -/
def transferWrites (prn chunkSize : Nat) (data : List Nat)
    (objectOffset objectCrc objectEnd : Nat) (st : DfuState) : StepRes × DfuState :=
  if objectEnd < objectOffset then (StepRes.final Outcome.crash, st)
  else
    match writeObject prn chunkSize objectCrc ((data.take objectEnd).drop objectOffset) st with
    | (Outcome.ok crc', st') =>
      match reqCrcGet st' with
      | (Outcome.ok (offset, crc), st2) =>
        if crc ≠ crc' then (StepRes.final (Outcome.err Error.CrcMismatch), st2)
        else (StepRes.next offset crc', st2)
      | (Outcome.err e, st2) => (StepRes.final (Outcome.err e), st2)
      | (Outcome.crash, st2) => (StepRes.final Outcome.crash, st2)
      | (Outcome.noFuel, st2) => (StepRes.final Outcome.noFuel, st2)
    | (Outcome.err e, st') => (StepRes.final (Outcome.err e), st')
    | (Outcome.crash, st') => (StepRes.final Outcome.crash, st')
    | (Outcome.noFuel, st') => (StepRes.final Outcome.noFuel, st')

/-- The window end `object_end` of the current iteration — updater.rs
lines 107-111: `object_offset - (object_offset % max_size) + max_size`,
clamped to `data.len()`. -/
def objectEndOf (data : List Nat) (m objectOffset : Nat) : Nat :=
  min data.length (objectOffset - objectOffset % m + m)

/-- Lines 116-119 followed by the window streaming: send
`ObjectCreate(ty, object_end - object_offset)` and stream the window.
The `u32` conversion of a negative `object_end - object_offset` panics
(checked build), as the slice `&data[object_offset..object_end]` would. -/
def transferCreate (prn chunkSize : Nat) (ty : ObjectType) (data : List Nat)
    (m objectOffset objectCrc : Nat) (st : DfuState) : StepRes × DfuState :=
  if objectEndOf data m objectOffset < objectOffset then (StepRes.final Outcome.crash, st)
  else
    match reqUnit (Request.objectCreate ty
        (objectEndOf data m objectOffset - objectOffset)) st with
    | (Outcome.ok _, st') =>
      transferWrites prn chunkSize data objectOffset objectCrc
        (objectEndOf data m objectOffset) st'
    | (Outcome.err e, st') => (StepRes.final (Outcome.err e), st')
    | (Outcome.crash, st') => (StepRes.final Outcome.crash, st')
    | (Outcome.noFuel, st') => (StepRes.final Outcome.noFuel, st')

/-- Lines 107-128: compute the window end (`object_end`), re-create the
object when at a window boundary or when the device CRC disagrees with
the host's CRC of the acknowledged prefix (the `||` short-circuits),
then stream the window.  `objectOffset % m` with `m = 0` panics, as does
`&data[0..objectOffset]` when `objectOffset > data.len()`. -/
def transferBodyRest (prn chunkSize : Nat) (ty : ObjectType) (data : List Nat)
    (m objectOffset objectCrc : Nat) (st : DfuState) : StepRes × DfuState :=
  if m = 0 then (StepRes.final Outcome.crash, st)
  else if objectOffset % m = 0 then
    transferCreate prn chunkSize ty data m objectOffset objectCrc st
  else if data.length < objectOffset then (StepRes.final Outcome.crash, st)
  else if objectCrc ≠ crcChecksum (data.take objectOffset) then
    transferCreate prn chunkSize ty data m objectOffset objectCrc st
  else
    transferWrites prn chunkSize data objectOffset objectCrc
      (objectEndOf data m objectOffset) st

/-- One iteration of `transfer_object`'s loop — updater.rs lines 96-129.
Line 97 evaluates `object_offset % object_max_size` whenever
`object_offset > 0` (Rust `&&` short-circuits), which panics when
`object_max_size = 0`.  On the execute-or-finish condition an
`ObjectExecute` is sent, and the loop breaks when the whole image has
been acknowledged. -/
def transferBody (prn chunkSize : Nat) (ty : ObjectType) (data : List Nat)
    (m objectOffset objectCrc : Nat) (st : DfuState) : StepRes × DfuState :=
  if 0 < objectOffset ∧ m = 0 then (StepRes.final Outcome.crash, st)
  else if (0 < objectOffset ∧ objectOffset % m = 0)
      ∨ (objectOffset = data.length ∧ objectCrc = crcChecksum data) then
    match reqUnit Request.objectExecute st with
    | (Outcome.ok _, st') =>
      if objectOffset = data.length then (StepRes.final (Outcome.ok ()), st')
      else transferBodyRest prn chunkSize ty data m objectOffset objectCrc st'
    | (Outcome.err e, st') => (StepRes.final (Outcome.err e), st')
    | (Outcome.crash, st') => (StepRes.final Outcome.crash, st')
    | (Outcome.noFuel, st') => (StepRes.final Outcome.noFuel, st')
  else transferBodyRest prn chunkSize ty data m objectOffset objectCrc st

/-- The fuelled `loop` of `transfer_object`. -/
def transferLoop (prn chunkSize : Nat) (ty : ObjectType) (data : List Nat) (m : Nat) :
    Nat → Nat → Nat → DfuState → Outcome Unit × DfuState
  | 0, _, _, st => (Outcome.noFuel, st)
  | Nat.succ fuel, objectOffset, objectCrc, st =>
    match transferBody prn chunkSize ty data m objectOffset objectCrc st with
    | (StepRes.next o' c', st') => transferLoop prn chunkSize ty data m fuel o' c' st'
    | (StepRes.final o, st') => (o, st')

/-- `Updater::transfer_object` — updater.rs lines 79-132: `ObjectSelect`,
initialize the cursor from the reply (overridden to zero when `force` is
set), then loop. -/
def transferObject (prn chunkSize : Nat) (force : Bool) (fuel : Nat)
    (ty : ObjectType) (data : List Nat) (st : DfuState) : Outcome Unit × DfuState :=
  match reqSelect ty st with
  | (Outcome.ok (m, offset, crc), st') =>
    transferLoop prn chunkSize ty data m fuel
      (if force then 0 else offset) (if force then 0 else crc) st'
  | (Outcome.err e, st') => (Outcome.err e, st')
  | (Outcome.crash, st') => (Outcome.crash, st')
  | (Outcome.noFuel, st') => (Outcome.noFuel, st')

/-! ## `Updater::update_module` and `Updater::update` (updater.rs lines 134-194) -/

/-- Lines 147-159: `ReceiptNotifySet(prn)` (every error terminal), then
`MtuGet`: on success the chunk size becomes `(mtu / 2) - 1` (a `u16`
subtraction, which panics on underflow, i.e. when `mtu < 2`, in a
checked build); an `OpcodeNotSupported` reply falls back to chunk size
223; any other error is terminal.  Returns the chunk size. -/
def probeAfterPing (prn : Nat) (st : DfuState) : Outcome Nat × DfuState :=
  match reqUnit (Request.receiptNotifySet prn) st with
  | (Outcome.ok _, st1) =>
    match reqMtu st1 with
    | (Outcome.ok mtu, st2) =>
      if mtu / 2 = 0 then (Outcome.crash, st2)
      else (Outcome.ok (mtu / 2 - 1), st2)
    | (Outcome.err (Error.DfuError DfuError.OpcodeNotSupported), st2) =>
      (Outcome.ok 223, st2)
    | (Outcome.err e, st2) => (Outcome.err e, st2)
    | (Outcome.crash, st2) => (Outcome.crash, st2)
    | (Outcome.noFuel, st2) => (Outcome.noFuel, st2)
  | (Outcome.err e, st1) => (Outcome.err e, st1)
  | (Outcome.crash, st1) => (Outcome.crash, st1)
  | (Outcome.noFuel, st1) => (Outcome.noFuel, st1)

/-- Lines 135-159 of `update_module`: `Ping(0x7F)` (an id mismatch is
`PingMismatch`; an `OpcodeNotSupported` reply is tolerated; every other
error is terminal), then `probeAfterPing`.  Returns the chunk size the
transfers will use. -/
def updateModuleProbe (prn : Nat) (st : DfuState) : Outcome Nat × DfuState :=
  match reqPing 0x7F st with
  | (Outcome.ok id, st1) =>
    if id ≠ 0x7F then (Outcome.err Error.PingMismatch, st1)
    else probeAfterPing prn st1
  | (Outcome.err (Error.DfuError DfuError.OpcodeNotSupported), st1) =>
    probeAfterPing prn st1
  | (Outcome.err e, st1) => (Outcome.err e, st1)
  | (Outcome.crash, st1) => (Outcome.crash, st1)
  | (Outcome.noFuel, st1) => (Outcome.noFuel, st1)

/-- `FirmwareData` — archive.rs lines 26-29. -/
structure FirmwareData where
  bin : List Nat
  dat : List Nat
deriving DecidableEq, Repr

/-- `FirmwareArchive` — archive.rs lines 31-35. -/
structure FirmwareArchive where
  bootloader : Option FirmwareData
  softdevice_bootloader : Option FirmwareData
  application : Option FirmwareData
deriving DecidableEq, Repr

/-- `Updater::update_module` — updater.rs lines 134-166: probe, then
transfer the init packet (`dat`) as a Command object and the image body
(`bin`) as a Data object. -/
def updateModule (prn : Nat) (force : Bool) (fuel : Nat) (fd : FirmwareData)
    (st : DfuState) : Outcome Unit × DfuState :=
  match updateModuleProbe prn st with
  | (Outcome.ok chunkSize, st1) =>
    match transferObject prn chunkSize force fuel ObjectType.Command fd.dat st1 with
    | (Outcome.ok _, st2) =>
      transferObject prn chunkSize force fuel ObjectType.Data fd.bin st2
    | (Outcome.err e, st2) => (Outcome.err e, st2)
    | (Outcome.crash, st2) => (Outcome.crash, st2)
    | (Outcome.noFuel, st2) => (Outcome.noFuel, st2)
  | (Outcome.err e, st1) => (Outcome.err e, st1)
  | (Outcome.crash, st1) => (Outcome.crash, st1)
  | (Outcome.noFuel, st1) => (Outcome.noFuel, st1)

/-- The error-handling pattern `update` wraps around each
`update_module` call — updater.rs lines 170-172 (and 177-179, 186-188):

  if let Err(err) = self.update_module(..) {
      self.request(AbortRequest)?;
      return Err(err);
  }

`AbortRequest`'s response is `NoResponse`, so the `Abort` can fail only
in its transport write — but when it does, the `?` propagates the
Abort's own error in place of the original one. -/
def moduleWithAbort (prn : Nat) (force : Bool) (fuel : Nat) (fd : FirmwareData)
    (st : DfuState) : Outcome Unit × DfuState :=
  match updateModule prn force fuel fd st with
  | (Outcome.ok _, st1) => (Outcome.ok (), st1)
  | (Outcome.err e, st1) =>
    match reqNoResponse Request.abort st1 with
    | (Outcome.ok _, st2) => (Outcome.err e, st2)
    | (Outcome.err e2, st2) => (Outcome.err e2, st2)
    | (Outcome.crash, st2) => (Outcome.crash, st2)
    | (Outcome.noFuel, st2) => (Outcome.noFuel, st2)
  | (Outcome.crash, st1) => (Outcome.crash, st1)
  | (Outcome.noFuel, st1) => (Outcome.noFuel, st1)

/-- `Updater::update` — updater.rs lines 168-194.  The
`softdevice_bootloader` image takes precedence over `bootloader`; the
`application` image is transferred afterwards.  The inter-image
`thread::sleep` calls and `reset(Bootloader)` are out-of-band effects
with no bearing on the script or the request trace and are not
modelled. -/
def update (prn : Nat) (force : Bool) (fuel : Nat) (fw : FirmwareArchive)
    (st : DfuState) : Outcome Unit × DfuState :=
  let first :=
    match fw.softdevice_bootloader with
    | some fd => moduleWithAbort prn force fuel fd st
    | none =>
      match fw.bootloader with
      | some fd => moduleWithAbort prn force fuel fd st
      | none => (Outcome.ok (), st)
  match first with
  | (Outcome.ok _, st1) =>
    match fw.application with
    | some fd => moduleWithAbort prn force fuel fd st1
    | none => (Outcome.ok (), st1)
  | (Outcome.err e, st1) => (Outcome.err e, st1)
  | (Outcome.crash, st1) => (Outcome.crash, st1)
  | (Outcome.noFuel, st1) => (Outcome.noFuel, st1)

/-! ## Trace observations used by the claims -/

/-- A trace entry respects the device's object-window size: every
`ObjectCreate` requests at most `m` bytes. -/
def createFits (m : Nat) : Request → Bool
  | Request.objectCreate _ size => decide (size ≤ m)
  | _ => true

/-- Whether a trace entry is an `ObjectWrite` (either variant). -/
def isObjectWrite : Request → Bool
  | Request.objectWriteUnack _ => true
  | Request.objectWriteAck _ => true
  | _ => false

/-- Payload bytes contributed by one trace entry. -/
def reqWriteLen : Request → Nat
  | Request.objectWriteUnack data => data.length
  | Request.objectWriteAck data => data.length
  | _ => 0

/-- Total `ObjectWrite` payload bytes in a trace. -/
def traceWriteBytes (l : List Request) : Nat :=
  (l.map reqWriteLen).sum

/-- The error of the script's next entry when that entry is a
transport-write failure. -/
def headWriteErr : List DevReply → Option Error
  | DevReply.wErr e :: _ => some e
  | _ => none

/-! # Lemmas -/

/-! ## SLIP codec -/

/-- Decoding an escaped byte string followed by the frame terminator
recovers the byte string and leaves the rest of the stream unread. -/
theorem slipDecodeLoop_escaped (b rest : List Nat) :
    slipDecodeLoop ((b.map slipEscapeByte).flatten ++ 0xC0 :: rest)
      = Except.ok (b, rest) := by
  induction b with
  | nil =>
    rw [List.map_nil, List.flatten_nil, List.nil_append, slipDecodeLoop.eq_def]
    norm_num
  | cons x xs ih =>
    by_cases h1 : x = 0xC0
    · subst h1
      simp [slipEscapeByte, slipDecodeLoop, ih, Except.map]
    · by_cases h2 : x = 0xDB
      · subst h2
        simp [slipEscapeByte, slipDecodeLoop, ih, Except.map]
      · rw [show (List.map slipEscapeByte (x :: xs)).flatten ++ 0xC0 :: rest
              = x :: ((List.map slipEscapeByte xs).flatten ++ 0xC0 :: rest) by
            simp [slipEscapeByte, h1, h2]]
        rw [slipDecodeLoop.eq_def]
        simp [h1, h2, ih, Except.map]

/-! ## CRC-32 -/

theorem nrfXorCancel (x m : Nat) : (x ^^^ m) ^^^ m = x := by
  rw [Nat.xor_assoc, Nat.xor_self, Nat.xor_zero]

theorem crcUpdate_nil (c : Nat) : crcUpdate c [] = c := by
  simp [crcUpdate, nrfXorCancel]

/-- `crc32::update` composes over concatenation: updating over `a` and
then over `b` equals one update over `a ++ b`. -/
theorem crcUpdate_append (c : Nat) (a b : List Nat) :
    crcUpdate (crcUpdate c a) b = crcUpdate c (a ++ b) := by
  simp [crcUpdate, List.foldl_append, nrfXorCancel]

/-- Reassembling a `u32` from its four little-endian bytes. -/
theorem leNat_leBytes4 (n : Nat) (h : n < 2 ^ 32) : leNat (leBytes4 n) = n := by
  simp only [leBytes4, leNat]
  omega

/-! # Claims -/

/-- C2.  SLIP round-trip: for every byte string `b`, decoding the stream
formed by prefixing `encoded_write`'s output for `b` with the byte `0x60`
yields exactly `b` (consuming the whole stream); and on the concrete
input `[0xC0, 0x01, 0xDB, 0x02]` the encoder produces exactly the
escaped frame `[0xDB, 0xDC, 0x01, 0xDB, 0xDD, 0x02, 0xC0]` — every
`0xC0` became `(0xDB, 0xDC)`, every `0xDB` became `(0xDB, 0xDD)`, and a
single terminal `0xC0` was appended. -/
theorem C2_slip_roundtrip :
    (∀ b : List Nat, slipDecodedRead (0x60 :: slipEncodedWrite b) = Except.ok (b, []))
    ∧ slipEncodedWrite [0xC0, 0x01, 0xDB, 0x02]
        = [0xDB, 0xDC, 0x01, 0xDB, 0xDD, 0x02, 0xC0] := by
  constructor
  · intro b
    have h := slipDecodeLoop_escaped b []
    simpa [slipDecodedRead, slipEncodedWrite] using h
  · rfl

/-- C6, counterexample.  The claim says an unexpected leading byte makes
`decoded_read` fail with a framing error whose kind is distinct from
`IoError`.  In the code the failure is an `std::io::Error` built with
`ErrorKind::Other` and message "Expected byte: 0x60", and the updater's
error enum lifts it — through the same `From<std::io::Error>` conversion
used for short reads — into the very same `Error::IOError` variant that
a short read produces: there is no distinct framing kind. -/
theorem C6_counterexample :
    slipDecodedRead [0x00] = Except.error (IoError.other ("Expected byte: 0x60"))
    ∧ ioErrorToError (IoError.other ("Expected byte: 0x60"))
        = Error.IOError (IoError.other ("Expected byte: 0x60"))
    ∧ slipDecodedRead [] = Except.error IoError.unexpectedEof
    ∧ ioErrorToError IoError.unexpectedEof = Error.IOError IoError.unexpectedEof := by
  refine ⟨?_, rfl, rfl, rfl⟩
  rfl

/-- C6, amended.  When the first byte read is not `0x60`, `decoded_read`
fails with the io error `ErrorKind::Other, "Expected byte: 0x60"` — a
distinguishable message, but surfaced through the *same* `Error::IOError`
variant as short reads (the error enum has no separate framing variant);
short reads propagate as `IoError` (`UnexpectedEof`). -/
theorem C6_amended (b : Nat) (hb : b ≠ 0x60) (rest : List Nat) :
    slipDecodedRead (b :: rest) = Except.error (IoError.other ("Expected byte: 0x60"))
    ∧ ioErrorToError (IoError.other ("Expected byte: 0x60"))
        = Error.IOError (IoError.other ("Expected byte: 0x60"))
    ∧ slipDecodedRead [] = Except.error IoError.unexpectedEof
    ∧ ioErrorToError IoError.unexpectedEof = Error.IOError IoError.unexpectedEof := by
  refine ⟨?_, rfl, rfl, rfl⟩
  simp [slipDecodedRead, hb]

/-- C6, witness for the amended theorem at the concrete leading byte
`0x61`. -/
theorem C6_witness :
    slipDecodedRead [0x61, 0xC0] = Except.error (IoError.other ("Expected byte: 0x60"))
    ∧ ioErrorToError (IoError.other ("Expected byte: 0x60"))
        = Error.IOError (IoError.other ("Expected byte: 0x60"))
    ∧ slipDecodedRead [] = Except.error IoError.unexpectedEof
    ∧ ioErrorToError IoError.unexpectedEof = Error.IOError IoError.unexpectedEof :=
  C6_amended 0x61 (by decide) [0xC0]

/-- C3.  For a decoded frame `b0 :: b1 :: payload`, `dfu_read` succeeds —
yielding the payload bytes from index 2 onward — iff `b0` is the
request's expected response opcode and `b1 = 0x01`; when `b0` matches
and `b1` is a non-success status, the result is a `DfuError` mapped by
the status table (`0x00 → InvalidOpcode`, …, anything else →
`UnknownError`). -/
theorem C3_dfu_read_dispatch (op b0 b1 : Nat) (payload : List Nat) :
    (dfuReadFrame op some (b0 :: b1 :: payload) = ReadOutcome.ok payload
       ↔ (b0 = op ∧ b1 = 1))
    ∧ (b0 = op → b1 ≠ 1 →
        dfuReadFrame op some (b0 :: b1 :: payload)
          = ReadOutcome.err (Error.DfuError (dfuErrorFrom b1)))
    ∧ dfuErrorFrom 0x00 = DfuError.InvalidOpcode
    ∧ dfuErrorFrom 0x02 = DfuError.OpcodeNotSupported
    ∧ dfuErrorFrom 0x03 = DfuError.InvalidParameter
    ∧ dfuErrorFrom 0x04 = DfuError.InsufficientResources
    ∧ dfuErrorFrom 0x05 = DfuError.InvalidObject
    ∧ dfuErrorFrom 0x06 = DfuError.UnsupportedType
    ∧ dfuErrorFrom 0x07 = DfuError.OperationNotPermitted
    ∧ dfuErrorFrom 0x08 = DfuError.OperationFailed
    ∧ dfuErrorFrom 0x09 = DfuError.ExtendedError
    ∧ (∀ s : Nat, s ∉ ([0, 2, 3, 4, 5, 6, 7, 8, 9] : List Nat) →
        dfuErrorFrom s = DfuError.UnknownError) := by
  refine ⟨?_, ?_, rfl, rfl, rfl, rfl, rfl, rfl, rfl, rfl, rfl, ?_⟩
  · constructor
    · intro h
      by_cases h0 : b0 = op
      · by_cases h1 : b1 = 1
        · exact ⟨h0, h1⟩
        · simp [dfuReadFrame, h0, h1] at h
      · simp [dfuReadFrame, h0] at h
    · rintro ⟨h0, h1⟩
      simp [dfuReadFrame, h0, h1]
  · intro h0 h1
    simp [dfuReadFrame, h0, h1]
  · intro s hs
    simp only [List.mem_cons, List.not_mem_nil, or_false, not_or] at hs
    obtain ⟨n0, n2, n3, n4, n5, n6, n7, n8, n9⟩ := hs
    simp [dfuErrorFrom, n0, n2, n3, n4, n5, n6, n7, n8, n9]

/-- C3, witness: a success frame for expected opcode `0x03` and an error
frame with status `0x05`. -/
theorem C3_witness :
    dfuReadFrame 0x03 some [0x03, 0x01, 5, 6] = ReadOutcome.ok [5, 6]
    ∧ dfuReadFrame 0x03 some [0x03, 0x05] = ReadOutcome.err
        (Error.DfuError DfuError.InvalidObject) := by
  refine ⟨(C3_dfu_read_dispatch 0x03 0x03 0x01 [5, 6]).1.mpr ⟨rfl, rfl⟩, ?_⟩
  have h := (C3_dfu_read_dispatch 0x03 0x03 0x05 []).2.1 rfl (by decide)
  simpa using h

/-- C10.  `dfu_read` panics, rather than returning an error, on malformed
device frames: a decoded frame shorter than 2 bytes fails the
`assert!(response.len() >= 2)`; a success frame whose payload has the
wrong shape panics in the payload parser (`assert_eq!` on the 8-byte
`GetCrcResponse` payload, out-of-bounds `data[0]` on an empty
`PingResponse` payload).  No `Error` value is produced on these paths. -/
theorem C10_malformed_frame_panics :
    (∀ frame : List Nat, frame.length < 2 →
        dfuReadFrame 0x03 parseGetCrcResponse frame = ReadOutcome.crash)
    ∧ (∀ payload : List Nat, payload.length ≠ 8 →
        dfuReadFrame 0x03 parseGetCrcResponse (0x03 :: 0x01 :: payload)
          = ReadOutcome.crash)
    ∧ dfuReadFrame 0x09 parsePingResponse [0x09, 0x01] = ReadOutcome.crash := by
  refine ⟨?_, ?_, rfl⟩
  · intro frame h
    match frame with
    | [] => rfl
    | [_] => rfl
    | _ :: _ :: _ => simp at h; omega
  · intro payload h
    simp [dfuReadFrame, parseGetCrcResponse, h]

/-- C10, witness: a 1-byte frame and a success frame with a 1-byte
`GetCrcResponse` payload. -/
theorem C10_witness :
    dfuReadFrame 0x03 parseGetCrcResponse [0x03] = ReadOutcome.crash
    ∧ dfuReadFrame 0x03 parseGetCrcResponse [0x03, 0x01, 7] = ReadOutcome.crash :=
  ⟨C10_malformed_frame_panics.1 [0x03] (by decide),
   C10_malformed_frame_panics.2.1 [7] (by decide)⟩

/-- C1.  The acknowledged `ObjectWrite` carries two opcodes: the request
is serialized with leading opcode byte `0x08`, while its response is
validated against expected response opcode `0x03` (`OPCODE` of the
acknowledged variant) and parsed as the CrcGet-shaped `{offset: u32,
crc: u32}`.  The unacknowledged `ObjectWrite` variant and `Abort` use
`NoResponse`, whose `dfu_read` reads no frame at all (the stream is left
untouched). -/
theorem C1_object_write_quirk :
    (∀ data : List Nat, objectWriteAckRequestBytes data = 0x08 :: data)
    ∧ objectWriteAckOpcode = 0x03
    ∧ (∀ offset crc : Nat, offset < 2 ^ 32 → crc < 2 ^ 32 →
        dfuReadFrame objectWriteAckOpcode parseObjectWriteResponse
            (0x03 :: 0x01 :: (leBytes4 offset ++ leBytes4 crc))
          = ReadOutcome.ok { offset := offset, crc := crc })
    ∧ (∀ data : List Nat, objectWriteUnackRequestBytes data = 0x08 :: data)
    ∧ (∀ stream : List Nat, objectWriteUnackResponseRead stream = (ReadOutcome.ok (), stream))
    ∧ (∀ stream : List Nat, abortResponseRead stream = (ReadOutcome.ok (), stream)) := by
  refine ⟨fun _ => rfl, rfl, ?_, fun _ => rfl, fun _ => rfl, fun _ => rfl⟩
  intro offset crc hoff hcrc
  have h1 : leNat (leBytes4 offset) = offset := leNat_leBytes4 offset hoff
  have h2 : leNat (leBytes4 crc) = crc := leNat_leBytes4 crc hcrc
  simp only [dfuReadFrame, objectWriteAckOpcode, parseObjectWriteResponse, leBytes4]
  norm_num [leNat] at h1 h2 ⊢
  omega

/-- C1, witness at the concrete receipt `{offset = 64, crc = 0x12345678}`. -/
theorem C1_witness :
    dfuReadFrame objectWriteAckOpcode parseObjectWriteResponse
        (0x03 :: 0x01 :: (leBytes4 64 ++ leBytes4 0x12345678))
      = ReadOutcome.ok { offset := 64, crc := 0x12345678 } :=
  C1_object_write_quirk.2.2.1 64 0x12345678 (by decide) (by decide)

/-! ## Request primitives: trace and outcome shape -/

theorem reqNoResponse_trace (rq : Request) (st : DfuState) :
    (reqNoResponse rq st).2.trace = st.trace ++ [rq] := by
  rcases st with ⟨script, trace⟩
  cases script with
  | nil => rfl
  | cons r rest => cases r <;> rfl

theorem reqNoResponse_outcome (rq : Request) (st : DfuState) :
    (reqNoResponse rq st).1
      = (match headWriteErr st.script with
         | some e => Outcome.err e
         | none => Outcome.ok ()) := by
  rcases st with ⟨script, trace⟩
  cases script with
  | nil => rfl
  | cons r rest => cases r <;> rfl

theorem reqUnit_trace (rq : Request) (st : DfuState) :
    (reqUnit rq st).2.trace = st.trace ++ [rq] := by
  rcases st with ⟨script, trace⟩
  cases script with
  | nil => rfl
  | cons r rest => cases r <;> rfl

theorem reqSelect_trace (ty : ObjectType) (st : DfuState) :
    (reqSelect ty st).2.trace = st.trace ++ [Request.objectSelect ty] := by
  rcases st with ⟨script, trace⟩
  cases script with
  | nil => rfl
  | cons r rest => cases r <;> rfl

theorem reqCrcGet_trace (st : DfuState) :
    (reqCrcGet st).2.trace = st.trace ++ [Request.crcGet] := by
  rcases st with ⟨script, trace⟩
  cases script with
  | nil => rfl
  | cons r rest => cases r <;> rfl

theorem reqWriteAck_trace (data : List Nat) (st : DfuState) :
    (reqWriteAck data st).2.trace = st.trace ++ [Request.objectWriteAck data] := by
  rcases st with ⟨script, trace⟩
  cases script with
  | nil => rfl
  | cons r rest => cases r <;> rfl

theorem traceWriteBytes_append (a b : List Request) :
    traceWriteBytes (a ++ b) = traceWriteBytes a + traceWriteBytes b := by
  simp [traceWriteBytes]

/-! ## `write_object` -/

/-- The fuelled chunker reassembles to the original list whenever the
fuel covers the list length. -/
theorem chunksAuxGo_flatten {α : Type} (m : Nat) :
    ∀ (n : Nat) (l : List α), l.length ≤ n → (chunksAuxGo m n l).flatten = l := by
  intro n
  induction n with
  | zero =>
    intro l h
    cases l with
    | nil => rfl
    | cons x xs => simp at h
  | succ k ih =>
    intro l h
    cases l with
    | nil => rfl
    | cons x xs =>
      rw [chunksAuxGo]
      have hlen : (xs.drop m).length ≤ k := by
        simp only [List.length_drop]
        simp at h
        omega
      simp only [List.flatten_cons, ih (xs.drop m) hlen]
      simp [List.take_append_drop]

/-- `slice::chunks` reassembles to the original list. -/
theorem chunksAux_flatten {α : Type} (m : Nat) (l : List α) :
    (chunksAux m l).flatten = l :=
  chunksAuxGo_flatten m l.length l (le_refl _)

theorem mem_append_single {r w : Request} {t : List Request} (h : r ∈ t ++ [w]) :
    r ∈ t ∨ r = w := by
  simpa using List.mem_append.mp h

/-- On success, `write_object`'s loop returns the incremental CRC over
all chunks and has appended exactly the chunks' bytes as `ObjectWrite`
requests. -/
theorem writeObjectGo_ok (prn : Nat) :
    ∀ (chunks : List (List Nat)) (prnCount c : Nat) (st : DfuState)
      (c' : Nat) (st2 : DfuState),
      writeObjectGo prn prnCount c chunks st = (Outcome.ok c', st2) →
      c' = crcUpdate c chunks.flatten
      ∧ traceWriteBytes st2.trace = traceWriteBytes st.trace + chunks.flatten.length := by
  intro chunks
  induction chunks with
  | nil =>
    intro prnCount c st c' st2 h
    rw [writeObjectGo] at h
    rw [Prod.mk.injEq] at h
    obtain ⟨h1, h2⟩ := h
    cases h1
    subst h2
    simp [crcUpdate_nil]
  | cons chunk rest ih =>
    intro prnCount c st c' st2 h
    rw [writeObjectGo] at h
    by_cases hp : 0 < prn
    · rw [if_pos hp] at h
      by_cases hcnt : prnCount < prn - 1
      · rw [if_pos hcnt] at h
        rcases hr : reqNoResponse (Request.objectWriteUnack chunk) st with ⟨o, st3⟩
        rw [hr] at h
        cases o with
        | ok u =>
          obtain ⟨hc, hb⟩ := ih _ _ _ _ _ h
          have htr := reqNoResponse_trace (Request.objectWriteUnack chunk) st
          rw [hr] at htr
          refine ⟨by rw [hc, crcUpdate_append, List.flatten_cons], ?_⟩
          rw [hb, htr, traceWriteBytes_append]
          simp [traceWriteBytes, reqWriteLen, List.flatten_cons]
          omega
        | err e => simp at h
        | crash => simp at h
        | noFuel => simp at h
      · rw [if_neg hcnt] at h
        rcases hr : reqWriteAck chunk st with ⟨o, st3⟩
        rw [hr] at h
        cases o with
        | ok pr =>
          rcases pr with ⟨off, crc⟩
          replace h : (if crc ≠ crcUpdate c chunk then (Outcome.err Error.CrcMismatch, st3)
              else writeObjectGo prn 0 (crcUpdate c chunk) rest st3)
              = (Outcome.ok c', st2) := h
          by_cases hcrc : crc ≠ crcUpdate c chunk
          · rw [if_pos hcrc] at h
            simp at h
          · rw [if_neg hcrc] at h
            obtain ⟨hc, hb⟩ := ih _ _ _ _ _ h
            have htr := reqWriteAck_trace chunk st
            rw [hr] at htr
            refine ⟨by rw [hc, crcUpdate_append, List.flatten_cons], ?_⟩
            rw [hb, htr, traceWriteBytes_append]
            simp [traceWriteBytes, reqWriteLen, List.flatten_cons]
            omega
        | err e => simp at h
        | crash => simp at h
        | noFuel => simp at h
    · rw [if_neg hp] at h
      rcases hr : reqNoResponse (Request.objectWriteUnack chunk) st with ⟨o, st3⟩
      rw [hr] at h
      cases o with
      | ok u =>
        obtain ⟨hc, hb⟩ := ih _ _ _ _ _ h
        have htr := reqNoResponse_trace (Request.objectWriteUnack chunk) st
        rw [hr] at htr
        refine ⟨by rw [hc, crcUpdate_append, List.flatten_cons], ?_⟩
        rw [hb, htr, traceWriteBytes_append]
        simp [traceWriteBytes, reqWriteLen, List.flatten_cons]
        omega
      | err e => simp at h
      | crash => simp at h
      | noFuel => simp at h

/-- Every request `write_object`'s loop adds to the trace is an
`ObjectWrite`. -/
theorem writeObjectGo_trace_writes (prn : Nat) :
    ∀ (chunks : List (List Nat)) (prnCount c : Nat) (st : DfuState),
      ∀ r ∈ (writeObjectGo prn prnCount c chunks st).2.trace,
        r ∈ st.trace ∨ isObjectWrite r = true := by
  intro chunks
  induction chunks with
  | nil =>
    intro prnCount c st r hr
    rw [writeObjectGo] at hr
    exact Or.inl hr
  | cons chunk rest ih =>
    intro prnCount c st r hr
    rw [writeObjectGo] at hr
    by_cases hp : 0 < prn
    · rw [if_pos hp] at hr
      by_cases hcnt : prnCount < prn - 1
      · rw [if_pos hcnt] at hr
        rcases hq : reqNoResponse (Request.objectWriteUnack chunk) st with ⟨o, st3⟩
        rw [hq] at hr
        have htr := reqNoResponse_trace (Request.objectWriteUnack chunk) st
        rw [hq] at htr
        cases o with
        | ok u =>
          rcases ih _ _ _ r hr with h | h
          · rcases mem_append_single (htr ▸ h) with h2 | h2
            · exact Or.inl h2
            · subst h2; exact Or.inr rfl
          · exact Or.inr h
        | err e =>
          replace hr : r ∈ st3.trace := hr
          rcases mem_append_single (htr ▸ hr) with h2 | h2
          · exact Or.inl h2
          · subst h2; exact Or.inr rfl
        | crash =>
          replace hr : r ∈ st3.trace := hr
          rcases mem_append_single (htr ▸ hr) with h2 | h2
          · exact Or.inl h2
          · subst h2; exact Or.inr rfl
        | noFuel =>
          replace hr : r ∈ st3.trace := hr
          rcases mem_append_single (htr ▸ hr) with h2 | h2
          · exact Or.inl h2
          · subst h2; exact Or.inr rfl
      · rw [if_neg hcnt] at hr
        rcases hq : reqWriteAck chunk st with ⟨o, st3⟩
        rw [hq] at hr
        have htr := reqWriteAck_trace chunk st
        rw [hq] at htr
        cases o with
        | ok pr =>
          rcases pr with ⟨off, crc⟩
          replace hr : r ∈ ((if crc ≠ crcUpdate c chunk
              then (Outcome.err Error.CrcMismatch, st3)
              else writeObjectGo prn 0 (crcUpdate c chunk) rest st3)).2.trace := hr
          by_cases hcrc : crc ≠ crcUpdate c chunk
          · rw [if_pos hcrc] at hr
            replace hr : r ∈ st3.trace := hr
            rcases mem_append_single (htr ▸ hr) with h2 | h2
            · exact Or.inl h2
            · subst h2; exact Or.inr rfl
          · rw [if_neg hcrc] at hr
            rcases ih _ _ _ r hr with h | h
            · rcases mem_append_single (htr ▸ h) with h2 | h2
              · exact Or.inl h2
              · subst h2; exact Or.inr rfl
            · exact Or.inr h
        | err e =>
          replace hr : r ∈ st3.trace := hr
          rcases mem_append_single (htr ▸ hr) with h2 | h2
          · exact Or.inl h2
          · subst h2; exact Or.inr rfl
        | crash =>
          replace hr : r ∈ st3.trace := hr
          rcases mem_append_single (htr ▸ hr) with h2 | h2
          · exact Or.inl h2
          · subst h2; exact Or.inr rfl
        | noFuel =>
          replace hr : r ∈ st3.trace := hr
          rcases mem_append_single (htr ▸ hr) with h2 | h2
          · exact Or.inl h2
          · subst h2; exact Or.inr rfl
    · rw [if_neg hp] at hr
      rcases hq : reqNoResponse (Request.objectWriteUnack chunk) st with ⟨o, st3⟩
      rw [hq] at hr
      have htr := reqNoResponse_trace (Request.objectWriteUnack chunk) st
      rw [hq] at htr
      cases o with
      | ok u =>
        rcases ih _ _ _ r hr with h | h
        · rcases mem_append_single (htr ▸ h) with h2 | h2
          · exact Or.inl h2
          · subst h2; exact Or.inr rfl
        · exact Or.inr h
      | err e =>
        replace hr : r ∈ st3.trace := hr
        rcases mem_append_single (htr ▸ hr) with h2 | h2
        · exact Or.inl h2
        · subst h2; exact Or.inr rfl
      | crash =>
        replace hr : r ∈ st3.trace := hr
        rcases mem_append_single (htr ▸ hr) with h2 | h2
        · exact Or.inl h2
        · subst h2; exact Or.inr rfl
      | noFuel =>
        replace hr : r ∈ st3.trace := hr
        rcases mem_append_single (htr ▸ hr) with h2 | h2
        · exact Or.inl h2
        · subst h2; exact Or.inr rfl

/-- `write_object` on success: the returned CRC is the incremental CRC
update over the streamed bytes, and exactly those bytes were sent as
`ObjectWrite` payloads. -/
theorem writeObject_ok (prn chunkSize c : Nat) (data : List Nat) (st : DfuState)
    (c2 : Nat) (st2 : DfuState)
    (h : writeObject prn chunkSize c data st = (Outcome.ok c2, st2)) :
    c2 = crcUpdate c data
    ∧ traceWriteBytes st2.trace = traceWriteBytes st.trace + data.length := by
  rw [writeObject] at h
  by_cases hcs : chunkSize = 0
  · rw [if_pos hcs] at h
    simp at h
  · rw [if_neg hcs] at h
    obtain ⟨h1, h2⟩ := writeObjectGo_ok prn _ _ _ _ _ _ h
    have hfl := chunksAux_flatten (chunkSize - 1) data
    rw [hfl] at h1 h2
    exact ⟨h1, h2⟩

/-- Every request `write_object` adds to the trace is an `ObjectWrite`. -/
theorem writeObject_trace_writes (prn chunkSize c : Nat) (data : List Nat)
    (st : DfuState) :
    ∀ r ∈ (writeObject prn chunkSize c data st).2.trace,
      r ∈ st.trace ∨ isObjectWrite r = true := by
  rw [writeObject]
  by_cases hcs : chunkSize = 0
  · rw [if_pos hcs]
    intro r hr
    exact Or.inl hr
  · rw [if_neg hcs]
    exact writeObjectGo_trace_writes prn _ _ _ _

/-- C4.  If `write_object(c₀, bytes)` returns successfully with `c₁`,
then `c₁` is the CRC-32/IEEE incremental update of `c₀` over `bytes`,
for every chunk size and PRN setting; and with PRN = N > 0, the N-th
chunk of a receipt cycle is sent acknowledged, and a receipt CRC
different from the running CRC fails with `CrcMismatch`. -/
theorem C4_write_object_crc :
    (∀ prn chunkSize c0 : Nat, ∀ bytes : List Nat, ∀ st : DfuState,
      ∀ c1 : Nat, ∀ st2 : DfuState,
        writeObject prn chunkSize c0 bytes st = (Outcome.ok c1, st2) →
        c1 = crcUpdate c0 bytes)
    ∧ (∀ prn prnCount c : Nat, ∀ chunk : List Nat, ∀ rest : List (List Nat),
      ∀ offset dcrc : Nat, ∀ tail : List DevReply, ∀ trace : List Request,
        0 < prn → ¬ prnCount < prn - 1 → dcrc ≠ crcUpdate c chunk →
        (writeObjectGo prn prnCount c (chunk :: rest)
            ⟨DevReply.writeR offset dcrc :: tail, trace⟩).1
          = Outcome.err Error.CrcMismatch) := by
  constructor
  · intro prn chunkSize c0 bytes st c1 st2 h
    exact (writeObject_ok prn chunkSize c0 bytes st c1 st2 h).1
  · intro prn prnCount c chunk rest offset dcrc tail trace hp hcnt hne
    rw [writeObjectGo]
    rw [if_pos hp, if_neg hcnt]
    have hq : reqWriteAck chunk ⟨DevReply.writeR offset dcrc :: tail, trace⟩
        = (Outcome.ok (offset, dcrc),
           ⟨tail, trace ++ [Request.objectWriteAck chunk]⟩) := rfl
    rw [hq]
    simp [hne]

set_option maxRecDepth 100000 in
/-- C4, witness: a PRN-0 write of five bytes in chunks of three, and a
PRN-1 acknowledged write whose receipt CRC (0) disagrees with the
running CRC. -/
theorem C4_witness :
    writeObject 0 3 0 [1, 2, 3, 4, 5] ⟨[], []⟩
      = (Outcome.ok (crcUpdate 0 [1, 2, 3, 4, 5]),
         ⟨[], [Request.objectWriteUnack [1, 2, 3], Request.objectWriteUnack [4, 5]]⟩)
    ∧ crcUpdate 0 [1, 2, 3, 4, 5] = crcUpdate 0 [1, 2, 3, 4, 5]
    ∧ (writeObjectGo 1 0 0 [[9]] ⟨[DevReply.writeR 0 0], []⟩).1
        = Outcome.err Error.CrcMismatch := by
  refine ⟨by decide, ?_, ?_⟩
  · exact C4_write_object_crc.1 0 3 0 [1, 2, 3, 4, 5] ⟨[], []⟩
      (crcUpdate 0 [1, 2, 3, 4, 5])
      ⟨[], [Request.objectWriteUnack [1, 2, 3], Request.objectWriteUnack [4, 5]]⟩
      (by decide)
  · exact C4_write_object_crc.2 1 0 0 [9] [] 0 0 [] []
      (by decide) (by decide) (by decide)


theorem traceOK_extend {m : Nat} {t : List Request} {w : Request}
    (hOK : ∀ r ∈ t, createFits m r = true) (hw : createFits m w = true) :
    ∀ r ∈ t ++ [w], createFits m r = true := by
  intro r hr
  rcases mem_append_single hr with h | h
  · exact hOK r h
  · subst h; exact hw

theorem writeObject_traceOK {m : Nat} (prn cs c : Nat) (data : List Nat)
    (st : DfuState) (hOK : ∀ r ∈ st.trace, createFits m r = true) :
    ∀ r ∈ (writeObject prn cs c data st).2.trace, createFits m r = true := by
  intro r hr
  rcases writeObject_trace_writes prn cs c data st r hr with h | h
  · exact hOK r h
  · cases r <;> simp_all [isObjectWrite, createFits]

theorem transferWrites_traceOK {m : Nat} (prn cs : Nat) (data : List Nat)
    (oOff oCrc oEnd : Nat) (st : DfuState)
    (hOK : ∀ r ∈ st.trace, createFits m r = true) :
    ∀ r ∈ (transferWrites prn cs data oOff oCrc oEnd st).2.trace,
      createFits m r = true := by
  intro r hr
  rw [transferWrites] at hr
  split at hr
  · exact hOK r hr
  · split at hr
    · rename_i crc2 st3 hw
      have h3 : ∀ x ∈ st3.trace, createFits m x = true := by
        have h := writeObject_traceOK prn cs oCrc ((data.take oEnd).drop oOff) st hOK
        rw [hw] at h
        exact h
      split at hr
      · rename_i off2 crc3 st4 hg
        have h4 : ∀ x ∈ st4.trace, createFits m x = true := by
          have htr := reqCrcGet_trace st3
          rw [hg] at htr
          rw [htr]
          exact traceOK_extend h3 rfl
        split at hr
        · exact h4 r hr
        · exact h4 r hr
      · rename_i e st4 hg
        have htr := reqCrcGet_trace st3
        rw [hg] at htr
        have h4 : ∀ x ∈ st4.trace, createFits m x = true := by
          rw [htr]
          exact traceOK_extend h3 rfl
        exact h4 r hr
      · rename_i st4 hg
        have htr := reqCrcGet_trace st3
        rw [hg] at htr
        have h4 : ∀ x ∈ st4.trace, createFits m x = true := by
          rw [htr]
          exact traceOK_extend h3 rfl
        exact h4 r hr
      · rename_i st4 hg
        have htr := reqCrcGet_trace st3
        rw [hg] at htr
        have h4 : ∀ x ∈ st4.trace, createFits m x = true := by
          rw [htr]
          exact traceOK_extend h3 rfl
        exact h4 r hr
    · rename_i e st3 hw
      have h := writeObject_traceOK prn cs oCrc ((data.take oEnd).drop oOff) st hOK
      rw [hw] at h
      exact h r hr
    · rename_i st3 hw
      have h := writeObject_traceOK prn cs oCrc ((data.take oEnd).drop oOff) st hOK
      rw [hw] at h
      exact h r hr
    · rename_i st3 hw
      have h := writeObject_traceOK prn cs oCrc ((data.take oEnd).drop oOff) st hOK
      rw [hw] at h
      exact h r hr

theorem objectEndOf_sub_le (data : List Nat) (m oOff : Nat) (hm : 0 < m) :
    objectEndOf data m oOff - oOff ≤ m := by
  have h1 : oOff % m ≤ oOff := Nat.mod_le _ _
  have h2 : objectEndOf data m oOff ≤ oOff - oOff % m + m := Nat.min_le_right _ _
  omega

theorem transferCreate_traceOK {m : Nat} (prn cs : Nat) (ty : ObjectType)
    (data : List Nat) (oOff oCrc : Nat) (st : DfuState) (hm : 0 < m)
    (hOK : ∀ r ∈ st.trace, createFits m r = true) :
    ∀ r ∈ (transferCreate prn cs ty data m oOff oCrc st).2.trace,
      createFits m r = true := by
  intro r hr
  rw [transferCreate] at hr
  split at hr
  · exact hOK r hr
  · split at hr
    · rename_i u st3 hc
      have h3 : ∀ x ∈ st3.trace, createFits m x = true := by
        have htr := reqUnit_trace
          (Request.objectCreate ty (objectEndOf data m oOff - oOff)) st
        rw [hc] at htr
        rw [htr]
        refine traceOK_extend hOK ?_
        simp [createFits]
        have := objectEndOf_sub_le data m oOff hm
        omega
      exact transferWrites_traceOK prn cs data oOff oCrc (objectEndOf data m oOff)
        st3 h3 r hr
    · rename_i e st3 hc
      have htr := reqUnit_trace
        (Request.objectCreate ty (objectEndOf data m oOff - oOff)) st
      rw [hc] at htr
      have h3 : ∀ x ∈ st3.trace, createFits m x = true := by
        rw [htr]
        refine traceOK_extend hOK ?_
        simp [createFits]
        have := objectEndOf_sub_le data m oOff hm
        omega
      exact h3 r hr
    · rename_i st3 hc
      have htr := reqUnit_trace
        (Request.objectCreate ty (objectEndOf data m oOff - oOff)) st
      rw [hc] at htr
      have h3 : ∀ x ∈ st3.trace, createFits m x = true := by
        rw [htr]
        refine traceOK_extend hOK ?_
        simp [createFits]
        have := objectEndOf_sub_le data m oOff hm
        omega
      exact h3 r hr
    · rename_i st3 hc
      have htr := reqUnit_trace
        (Request.objectCreate ty (objectEndOf data m oOff - oOff)) st
      rw [hc] at htr
      have h3 : ∀ x ∈ st3.trace, createFits m x = true := by
        rw [htr]
        refine traceOK_extend hOK ?_
        simp [createFits]
        have := objectEndOf_sub_le data m oOff hm
        omega
      exact h3 r hr

theorem transferBodyRest_traceOK {m : Nat} (prn cs : Nat) (ty : ObjectType)
    (data : List Nat) (oOff oCrc : Nat) (st : DfuState) (hm : 0 < m)
    (hOK : ∀ r ∈ st.trace, createFits m r = true) :
    ∀ r ∈ (transferBodyRest prn cs ty data m oOff oCrc st).2.trace,
      createFits m r = true := by
  intro r hr
  rw [transferBodyRest] at hr
  split at hr
  · exact hOK r hr
  · split at hr
    · exact transferCreate_traceOK prn cs ty data oOff oCrc st hm hOK r hr
    · split at hr
      · exact hOK r hr
      · split at hr
        · exact transferCreate_traceOK prn cs ty data oOff oCrc st hm hOK r hr
        · exact transferWrites_traceOK prn cs data oOff oCrc
            (objectEndOf data m oOff) st hOK r hr

theorem transferBody_traceOK {m : Nat} (prn cs : Nat) (ty : ObjectType)
    (data : List Nat) (oOff oCrc : Nat) (st : DfuState) (hm : 0 < m)
    (hOK : ∀ r ∈ st.trace, createFits m r = true) :
    ∀ r ∈ (transferBody prn cs ty data m oOff oCrc st).2.trace,
      createFits m r = true := by
  intro r hr
  rw [transferBody] at hr
  split at hr
  · exact hOK r hr
  · split at hr
    · split at hr
      · rename_i u st3 he
        have h3 : ∀ x ∈ st3.trace, createFits m x = true := by
          have htr := reqUnit_trace Request.objectExecute st
          rw [he] at htr
          rw [htr]
          exact traceOK_extend hOK rfl
        split at hr
        · exact h3 r hr
        · exact transferBodyRest_traceOK prn cs ty data oOff oCrc st3 hm h3 r hr
      · rename_i e st3 he
        have htr := reqUnit_trace Request.objectExecute st
        rw [he] at htr
        have h3 : ∀ x ∈ st3.trace, createFits m x = true := by
          rw [htr]
          exact traceOK_extend hOK rfl
        exact h3 r hr
      · rename_i st3 he
        have htr := reqUnit_trace Request.objectExecute st
        rw [he] at htr
        have h3 : ∀ x ∈ st3.trace, createFits m x = true := by
          rw [htr]
          exact traceOK_extend hOK rfl
        exact h3 r hr
      · rename_i st3 he
        have htr := reqUnit_trace Request.objectExecute st
        rw [he] at htr
        have h3 : ∀ x ∈ st3.trace, createFits m x = true := by
          rw [htr]
          exact traceOK_extend hOK rfl
        exact h3 r hr
    · exact transferBodyRest_traceOK prn cs ty data oOff oCrc st hm hOK r hr

theorem transferLoop_traceOK {m : Nat} (prn cs : Nat) (ty : ObjectType)
    (data : List Nat) (hm : 0 < m) :
    ∀ (fuel oOff oCrc : Nat) (st : DfuState),
      (∀ r ∈ st.trace, createFits m r = true) →
      ∀ r ∈ (transferLoop prn cs ty data m fuel oOff oCrc st).2.trace,
        createFits m r = true := by
  intro fuel
  induction fuel with
  | zero =>
    intro oOff oCrc st hOK r hr
    rw [transferLoop] at hr
    exact hOK r hr
  | succ k ih =>
    intro oOff oCrc st hOK r hr
    rw [transferLoop] at hr
    rcases hb : transferBody prn cs ty data m oOff oCrc st with ⟨sr, st3⟩
    rw [hb] at hr
    have h3 : ∀ x ∈ st3.trace, createFits m x = true := by
      have h := transferBody_traceOK prn cs ty data oOff oCrc st hm hOK
      rw [hb] at h
      exact h
    cases sr with
    | next o2 c2 => exact ih o2 c2 st3 h3 r hr
    | final o => exact h3 r hr

/-- C8.  For every device-reported `max_size = m > 0` and every sequence
of device responses, every `ObjectCreate` that `transfer_object` emits
requests `object_end - object_offset ≤ m` bytes (the host never opens a
window wider than `max_size`), and on success `write_object` streams
exactly the requested window: the `ObjectWrite` payload bytes it appends
to the trace total exactly the window's length. -/
theorem C8_object_window_bound :
    (∀ prn chunkSize : Nat, ∀ force : Bool, ∀ fuel : Nat, ∀ ty : ObjectType,
      ∀ data : List Nat, ∀ m offset crc : Nat, ∀ rest : List DevReply,
      ∀ trace : List Request,
        0 < m →
        (∀ r ∈ trace, createFits m r = true) →
        ∀ r ∈ (transferObject prn chunkSize force fuel ty data
            ⟨DevReply.selectR m offset crc :: rest, trace⟩).2.trace,
          createFits m r = true)
    ∧ (∀ prn chunkSize c : Nat, ∀ data : List Nat, ∀ st : DfuState,
      ∀ c2 : Nat, ∀ st2 : DfuState,
        writeObject prn chunkSize c data st = (Outcome.ok c2, st2) →
        traceWriteBytes st2.trace = traceWriteBytes st.trace + data.length) := by
  constructor
  · intro prn cs force fuel ty data m offset crc rest trace hm hOK r hr
    have hsel : reqSelect ty ⟨DevReply.selectR m offset crc :: rest, trace⟩
        = (Outcome.ok (m, offset, crc), ⟨rest, trace ++ [Request.objectSelect ty]⟩) := rfl
    rw [transferObject, hsel] at hr
    have hOK2 : ∀ x ∈ trace ++ [Request.objectSelect ty], createFits m x = true :=
      traceOK_extend hOK rfl
    exact transferLoop_traceOK prn cs ty data hm fuel
      (if force then 0 else offset) (if force then 0 else crc)
      ⟨rest, trace ++ [Request.objectSelect ty]⟩ hOK2 r hr
  · intro prn cs c data st c2 st2 h
    exact (writeObject_ok prn cs c data st c2 st2 h).2

set_option maxRecDepth 100000 in
/-- C8, witness: a concrete transfer (the device reports `max_size = 4`
and the script ends after the `ObjectCreate`) and a concrete successful
`write_object` of five bytes. -/
theorem C8_witness :
    (∀ r ∈ (transferObject 0 4 false 2 ObjectType.Data [5, 6]
        ⟨[DevReply.selectR 4 0 0], []⟩).2.trace, createFits 4 r = true)
    ∧ traceWriteBytes [Request.objectWriteUnack [1, 2, 3], Request.objectWriteUnack [4, 5]]
        = traceWriteBytes [] + 5 := by
  constructor
  · exact C8_object_window_bound.1 0 4 false 2 ObjectType.Data [5, 6] 4 0 0 [] []
      (by decide) (by simp)
  · exact C8_object_window_bound.2 0 3 0 [1, 2, 3, 4, 5] ⟨[], []⟩
      (crcUpdate 0 [1, 2, 3, 4, 5])
      ⟨[], [Request.objectWriteUnack [1, 2, 3], Request.objectWriteUnack [4, 5]]⟩
      (by decide)

/-- With `max_size = 0` and a nonempty image, every iteration of
`transfer_object`'s loop evaluates a remainder by zero and panics:
either at line 97 (`object_offset > 0` forces `object_offset %
object_max_size` to be evaluated) or at the window computation of lines
107-108. -/
theorem transferBody_m0 (prn cs : Nat) (ty : ObjectType) (data : List Nat)
    (oOff oCrc : Nat) (st : DfuState) (hdata : data ≠ []) :
    transferBody prn cs ty data 0 oOff oCrc st
      = (StepRes.final Outcome.crash, st) := by
  rw [transferBody]
  rcases Nat.eq_zero_or_pos oOff with h0 | h0
  · subst h0
    rw [if_neg (by simp)]
    rw [if_neg ?hc]
    case hc =>
      rintro (⟨h1, _⟩ | ⟨h1, _⟩)
      · exact absurd h1 (by decide)
      · exact hdata (by cases data with
          | nil => rfl
          | cons a l => simp at h1)
    rw [transferBodyRest]
    rw [if_pos rfl]
  · rw [if_pos ⟨h0, rfl⟩]

/-- C9, amended.  With a device-reported `max_size = 0` and a *nonempty*
image, `transfer_object` panics (remainder by zero, no zero guard)
instead of returning an `Error` value. -/
theorem C9_max_size_zero_crash (prn chunkSize : Nat) (force : Bool) (fuel : Nat)
    (ty : ObjectType) (data : List Nat) (offset crc : Nat) (rest : List DevReply)
    (trace : List Request) (hdata : data ≠ []) (hfuel : 0 < fuel) :
    (transferObject prn chunkSize force fuel ty data
        ⟨DevReply.selectR 0 offset crc :: rest, trace⟩).1 = Outcome.crash := by
  obtain ⟨f, rfl⟩ : ∃ f, fuel = Nat.succ f := ⟨fuel - 1, by omega⟩
  have hsel : reqSelect ty ⟨DevReply.selectR 0 offset crc :: rest, trace⟩
      = (Outcome.ok (0, offset, crc), ⟨rest, trace ++ [Request.objectSelect ty]⟩) := rfl
  rw [transferObject, hsel]
  show (transferLoop prn chunkSize ty data 0 (Nat.succ f)
      (if force then 0 else offset) (if force then 0 else crc)
      ⟨rest, trace ++ [Request.objectSelect ty]⟩).1 = Outcome.crash
  rw [transferLoop]
  rw [transferBody_m0 prn chunkSize ty data _ _ _ hdata]

/-- C9, counterexample to the claim as stated: with `max_size = 0`, an
*empty* image, a zero device offset/CRC and a successful
`ObjectExecute`, `transfer_object` takes the execute-or-finish branch
before any remainder is evaluated and returns `Ok(())` — so not every
call with a device-reported `max_size` of zero panics. -/
theorem C9_counterexample :
    (transferObject 5 10 false 1 ObjectType.Command []
        ⟨[DevReply.selectR 0 0 0, DevReply.unit], []⟩).1 = Outcome.ok ()
    ∧ (Outcome.ok () : Outcome Unit) ≠ Outcome.crash := by
  refine ⟨?_, by decide⟩
  decide

/-- C9, witness for the amended theorem: a one-byte image with
`max_size = 0` panics at once. -/
theorem C9_witness :
    (transferObject 5 10 false 1 ObjectType.Command [1]
        ⟨[DevReply.selectR 0 0 0], []⟩).1 = Outcome.crash :=
  C9_max_size_zero_crash 5 10 false 1 ObjectType.Command [1] 0 0 [] []
    (by decide) (by decide)

/-- C7.  After a successful `MtuGet` returning `mtu` (with `mtu ≥ 2`, so
the `u16` subtraction cannot underflow), the chunk size `update_module`
will use for `ObjectWrite` is `(mtu / 2) - 1`; an `OpcodeNotSupported`
reply to `MtuGet` defaults the chunk size to 223; any other `MtuGet`
error is terminal. -/
theorem C7_chunk_size (prn mtu : Nat) (rest : List DevReply)
    (trace : List Request) (e : Error) :
    (2 ≤ mtu →
      (updateModuleProbe prn ⟨DevReply.pingR 0x7F :: DevReply.unit ::
          DevReply.mtuR mtu :: rest, trace⟩).1
        = Outcome.ok (mtu / 2 - 1))
    ∧ (updateModuleProbe prn ⟨DevReply.pingR 0x7F :: DevReply.unit ::
          DevReply.rErr (Error.DfuError DfuError.OpcodeNotSupported) :: rest, trace⟩).1
        = Outcome.ok 223
    ∧ (e ≠ Error.DfuError DfuError.OpcodeNotSupported →
      (updateModuleProbe prn ⟨DevReply.pingR 0x7F :: DevReply.unit ::
          DevReply.rErr e :: rest, trace⟩).1
        = Outcome.err e) := by
  refine ⟨?_, rfl, ?_⟩
  · intro hmtu
    simp only [updateModuleProbe, reqPing, pushReq, popReply, probeAfterPing,
      reqUnit, reqMtu]
    rw [if_neg (by decide)]
    have h2 : ¬ (mtu / 2 = 0) := by omega
    rw [if_neg h2]
  · intro he
    simp only [updateModuleProbe, reqPing, pushReq, popReply, probeAfterPing,
      reqUnit, reqMtu]
    rw [if_neg (by decide)]

/-- C7, witness: `mtu = 100` gives chunk size 49; `OpcodeNotSupported`
gives 223; a `CrcMismatch`-flavoured `MtuGet` failure is terminal. -/
theorem C7_witness :
    (updateModuleProbe 5 ⟨[DevReply.pingR 0x7F, DevReply.unit,
        DevReply.mtuR 100], []⟩).1 = Outcome.ok 49
    ∧ (updateModuleProbe 5 ⟨[DevReply.pingR 0x7F, DevReply.unit,
        DevReply.rErr (Error.DfuError DfuError.OpcodeNotSupported)], []⟩).1
        = Outcome.ok 223
    ∧ (updateModuleProbe 5 ⟨[DevReply.pingR 0x7F, DevReply.unit,
        DevReply.rErr Error.CrcMismatch], []⟩).1
        = Outcome.err Error.CrcMismatch := by
  refine ⟨?_, ?_, ?_⟩
  · exact (C7_chunk_size 5 100 [] [] Error.CrcMismatch).1 (by decide)
  · exact (C7_chunk_size 5 100 [] [] Error.CrcMismatch).2.1
  · exact (C7_chunk_size 5 100 [] [] Error.CrcMismatch).2.2 (by decide)

/-- C5, counterexample.  The claim says the Abort's own error is
swallowed and the original error returned unchanged; but `update` sends
the Abort through `self.request(AbortRequest)?`, whose `?` propagates an
Abort transport failure.  Here `update_module` fails with
`DfuError(InvalidObject)`, the Abort write then fails with an io error,
and `update` returns the io error instead of the original. -/
theorem C5_counterexample :
    (update 5 false 1 ⟨none, none, some ⟨[], []⟩⟩
        ⟨[DevReply.rErr (Error.DfuError DfuError.InvalidObject),
          DevReply.wErr (Error.IOError (IoError.other ("boom")))], []⟩).1
      = Outcome.err (Error.IOError (IoError.other ("boom")))
    ∧ (Outcome.err (Error.IOError (IoError.other ("boom"))) : Outcome Unit)
        ≠ Outcome.err (Error.DfuError DfuError.InvalidObject) := by
  refine ⟨?_, by decide⟩
  rfl

/-- C5, amended.  When the image transfer inside `update` fails with
error `e`, `update` sends an `Abort`; if the Abort's transport write
succeeds (the script's next entry is not a write failure), the original
`e` is returned; but if the Abort itself fails, the `?` operator
propagates the Abort's own error in place of the original. -/
theorem C5_abort_error_propagation (prn : Nat) (force : Bool) (fuel : Nat)
    (fd : FirmwareData) (st st1 : DfuState) (e : Error)
    (h : updateModule prn force fuel fd st = (Outcome.err e, st1)) :
    (update prn force fuel ⟨none, none, some fd⟩ st).2.trace
      = st1.trace ++ [Request.abort]
    ∧ (update prn force fuel ⟨none, none, some fd⟩ st).1
      = (match headWriteErr st1.script with
         | some e2 => Outcome.err e2
         | none => Outcome.err e) := by
  have hupd : update prn force fuel ⟨none, none, some fd⟩ st
      = moduleWithAbort prn force fuel fd st := rfl
  have hmwa : moduleWithAbort prn force fuel fd st
      = (match reqNoResponse Request.abort st1 with
         | (Outcome.ok _, st2) => (Outcome.err e, st2)
         | (Outcome.err e2, st2) => (Outcome.err e2, st2)
         | (Outcome.crash, st2) => (Outcome.crash, st2)
         | (Outcome.noFuel, st2) => (Outcome.noFuel, st2)) := by
    rw [moduleWithAbort, h]
  rcases ha : reqNoResponse Request.abort st1 with ⟨o2, st2⟩
  rw [ha] at hmwa
  have htr := reqNoResponse_trace Request.abort st1
  rw [ha] at htr
  replace htr : st2.trace = st1.trace ++ [Request.abort] := htr
  have hout := reqNoResponse_outcome Request.abort st1
  rw [ha] at hout
  replace hout : o2 = (match headWriteErr st1.script with
      | some e2 => Outcome.err e2
      | none => Outcome.ok ()) := hout
  rw [hupd, hmwa]
  rcases hh : headWriteErr st1.script with _ | e2
  · rw [hh] at hout
    replace hout : o2 = Outcome.ok () := hout
    subst hout
    exact ⟨htr, rfl⟩
  · rw [hh] at hout
    replace hout : o2 = Outcome.err e2 := hout
    subst hout
    exact ⟨htr, rfl⟩

/-- C5, witness: the transfer fails at the `Ping`, the script is then
exhausted so the Abort write succeeds, the `Abort` is traced and the
original error is surfaced. -/
theorem C5_witness :
    (update 5 false 1 ⟨none, none, some ⟨[], []⟩⟩
        ⟨[DevReply.rErr (Error.DfuError DfuError.InvalidObject)], []⟩).2.trace
      = [Request.ping 0x7F, Request.abort]
    ∧ (update 5 false 1 ⟨none, none, some ⟨[], []⟩⟩
        ⟨[DevReply.rErr (Error.DfuError DfuError.InvalidObject)], []⟩).1
      = Outcome.err (Error.DfuError DfuError.InvalidObject) := by
  have h := C5_abort_error_propagation 5 false 1 ⟨[], []⟩
    ⟨[DevReply.rErr (Error.DfuError DfuError.InvalidObject)], []⟩
    ⟨[], [Request.ping 0x7F]⟩
    (Error.DfuError DfuError.InvalidObject) (by decide)
  exact ⟨h.1, h.2⟩

end NrfDfu
